import Mathlib

/-!
Verification of the guest/host boundary protocol of procedural_lithification:
the witx interface schema (src/crates/interface/res/math.witx), the
AssemblyScript guest codec (src/mods/as_sys/assembly/interface.ts) and the
guest-facing entry points (src/mods/as_sys/assembly/index.ts).

The embedding models guest linear memory at byte granularity, the wrapper
classes Vec3 and Quat as values carrying a pointer, the boundary imports as
an abstract Host record, and each guest operation as a state transformer
that also records the trace of boundary calls it makes.
-/

namespace AsSys

/-- Guest linear memory: a byte value at every byte address. -/
def Mem : Type := Nat → Nat

/-- Read one byte; memory cells are truncated to a byte on read. -/
def loadByte (m : Mem) (a : Nat) : Nat := m a % 256

/-- Write one byte (truncated to 8 bits) at address a. -/
def storeByte (m : Mem) (a b : Nat) : Mem :=
  fun x => if x = a then b % 256 else m x

/-- The AssemblyScript primitive load of a 32-bit float at ptr + off,
little-endian, returned as its 32-bit pattern. -/
def load_f32 (m : Mem) (ptr off : Nat) : Nat :=
  loadByte m (ptr + off) + 256 * loadByte m (ptr + off + 1) +
    65536 * loadByte m (ptr + off + 2) + 16777216 * loadByte m (ptr + off + 3)

/-- The AssemblyScript primitive store of a 32-bit float pattern at ptr + off,
little-endian. -/
def store_f32 (m : Mem) (ptr off v : Nat) : Mem :=
  storeByte (storeByte (storeByte (storeByte m (ptr + off) v)
    (ptr + off + 1) (v / 256)) (ptr + off + 2) (v / 65536))
    (ptr + off + 3) (v / 16777216)

/-! ## The interface schema, from src/crates/interface/res/math.witx -/

/-- Scalar types appearing in the schema records. -/
inductive WitxType
  | f32
deriving DecidableEq, Repr

/-- Field names appearing in the schema records. -/
inductive FieldName
  | x
  | y
  | z
  | w
deriving DecidableEq, Repr

/-- One record field of the schema. -/
structure WField where
  name : FieldName
  ty : WitxType
deriving DecidableEq, Repr

/-- Byte size of a schema scalar type. -/
def wtypeSize : WitxType → Nat
  | .f32 => 4

/-- The vec3 record of math.witx: fields x, y, z, each f32. -/
def vec3Record : List WField := [⟨.x, .f32⟩, ⟨.y, .f32⟩, ⟨.z, .f32⟩]

/-- The quat record of math.witx: fields x, y, z, w, each f32. -/
def quatRecord : List WField := [⟨.x, .f32⟩, ⟨.y, .f32⟩, ⟨.z, .f32⟩, ⟨.w, .f32⟩]

/-- Total byte size of a record: the sum of its field sizes, no padding. -/
def recordSize (fs : List WField) : Nat := (fs.map fun f => wtypeSize f.ty).sum

/-- Offset accumulator: the offset of a field is the cumulative size of the
fields preceding it. -/
def fieldOffsetAux : List WField → FieldName → Nat → Option Nat
  | [], _, _ => none
  | f :: rest, n, acc =>
    if f.name = n then some acc else fieldOffsetAux rest n (acc + wtypeSize f.ty)

/-- Schema-mandated byte offset of a named field within a record. -/
def fieldOffset (fs : List WField) (n : FieldName) : Option Nat :=
  fieldOffsetAux fs n 0

/-- The error enumeration of math.witx: a u32 tag, cases ok and
missing_memory in declaration order. -/
inductive Errno
  | ok
  | missing_memory
deriving DecidableEq, Repr

/-- The u32 tag value of each errno case, by declaration order. -/
def Errno.tag : Errno → Nat
  | .ok => 0
  | .missing_memory => 1

/-- The errno cases in schema declaration order. -/
def errnoCases : List Errno := [Errno.ok, Errno.missing_memory]

/-- Names of the functions exported by the wasm_glam witx module. -/
inductive FuncName
  | unit_z
  | normalize
  | mul_vec3
deriving DecidableEq, Repr

/-- Names of the schema types referenced in function signatures. -/
inductive TypeName
  | vec3
  | quat
  | errno
deriving DecidableEq, BEq, Repr

/-- A function signature of the witx module: parameter types and the
expected-value-or-error result shape. -/
structure WitxFunc where
  name : FuncName
  params : List TypeName
  resultOk : TypeName
  resultErr : TypeName
deriving DecidableEq, Repr

/-- The wasm_glam module of math.witx: unit_z, normalize and mul_vec3, each
declared with result expected(vec3, error errno). -/
def wasmGlamModule : List WitxFunc :=
  [⟨.unit_z, [], .vec3, .errno⟩,
   ⟨.normalize, [.vec3], .vec3, .errno⟩,
   ⟨.mul_vec3, [.quat, .vec3], .vec3, .errno⟩]

/-! ## The guest codec, from src/mods/as_sys/assembly/interface.ts -/

/-- The host side of the boundary, as the guest binding declares it: the raw
math imports take addresses and return nothing (they may only mutate guest
memory), and the input queries take an opaque reference plus an i32 code and
return a boolean. -/
structure Host where
  unit_z : Mem → Nat → Mem
  mul_vec3 : Mem → Nat → Nat → Nat → Mem
  normalize : Mem → Nat → Mem
  just_pressed : Nat → Int → Bool
  just_released : Nat → Int → Bool

/-- Guest-side mutable state: the allocator watermark and linear memory. -/
structure GuestState where
  next : Nat
  mem : Mem

/-- One boundary invocation, with its address arguments in call order. -/
inductive BoundaryCall
  | unitZ (out : Nat)
  | mulVec3 (rot v out : Nat)
  | normalizeAt (out : Nat)
deriving DecidableEq, Repr

/-- The result of one guest operation: the returned value, the state after,
and the trace of boundary calls made. -/
structure GuestStep (α : Type) where
  val : α
  state : GuestState
  calls : List BoundaryCall

/-- Modelled from the spec: the guest allocator (heap.alloc of the
AssemblyScript runtime, external to src) returns the address of a fresh
buffer of the requested byte size; modelled as a bump allocator. -/
def heapAlloc (s : GuestState) (size : Nat) : Nat × GuestState :=
  (s.next, ⟨s.next + size, s.mem⟩)

/-- Modelled from the spec: VEC3_SIZE is declared in interface.ts but its
value is supplied at instantiation; per the schema it is the byte size of
the vec3 record, 12. -/
def VEC3_SIZE : Nat := recordSize vec3Record

/-- Modelled from the spec: QUAT_SIZE is declared in interface.ts but its
value is supplied at instantiation; per the schema it is the byte size of
the quat record, 16. -/
def QUAT_SIZE : Nat := recordSize quatRecord

/-- The Vec3 wrapper class: a pointer to the underlying vec3 in memory. -/
structure Vec3 where
  ptr : Nat
deriving DecidableEq, Repr

/-- The Quat wrapper class: a pointer to the underlying quat in memory. -/
structure Quat where
  ptr : Nat
deriving DecidableEq, Repr

/-- Vec3.unit_z from interface.ts: allocate VEC3_SIZE bytes, invoke the raw
boundary import with that address, wrap the address. -/
def Vec3.unit_z (h : Host) (s : GuestState) : GuestStep Vec3 :=
  let a := heapAlloc s VEC3_SIZE
  ⟨⟨a.1⟩, ⟨a.2.next, h.unit_z a.2.mem a.1⟩, [BoundaryCall.unitZ a.1]⟩

/-- Vec3.normalize from interface.ts: invoke the raw boundary import on the
receiver's own pointer and return the receiver. -/
def Vec3.normalize (h : Host) (s : GuestState) (self : Vec3) : GuestStep Vec3 :=
  ⟨self, ⟨s.next, h.normalize s.mem self.ptr⟩, [BoundaryCall.normalizeAt self.ptr]⟩

/-- Quat.getX from interface.ts: load an f32 at offset 0 from the pointer. -/
def Quat.getX (m : Mem) (q : Quat) : Nat := load_f32 m q.ptr 0

/-- Quat.getY from interface.ts: load an f32 at offset 4 from the pointer. -/
def Quat.getY (m : Mem) (q : Quat) : Nat := load_f32 m q.ptr 4

/-- Quat.getZ from interface.ts: load an f32 at offset 8 from the pointer. -/
def Quat.getZ (m : Mem) (q : Quat) : Nat := load_f32 m q.ptr 8

/-- Quat.getW from interface.ts: load an f32 at offset 12 from the pointer. -/
def Quat.getW (m : Mem) (q : Quat) : Nat := load_f32 m q.ptr 12

/-- Quat.mul_vec3 from interface.ts: allocate VEC3_SIZE bytes for the output,
invoke the raw boundary import with (rot, v, out), wrap the output address. -/
def Quat.mul_vec3 (h : Host) (s : GuestState) (q : Quat) (v : Vec3) : GuestStep Vec3 :=
  let a := heapAlloc s VEC3_SIZE
  ⟨⟨a.1⟩, ⟨a.2.next, h.mul_vec3 a.2.mem q.ptr v.ptr a.1⟩,
    [BoundaryCall.mulVec3 q.ptr v.ptr a.1]⟩

/-- The AssemblyScript coercion of a boolean to an i32 result: 1 or 0. -/
def boolToI32 (b : Bool) : Int := if b then 1 else 0

/-- just_pressed from index.ts: forward the opaque reference together with
the fixed input code 34 to the host import and return its boolean as i32. -/
def just_pressed (h : Host) (inp : Nat) : Int :=
  boolToI32 (h.just_pressed inp 34)

/-- Modelled from the spec: a guest-facing just_released binding is absent
from src (interface.ts only declares the host import); per the spec it
forwards exactly the fixed code 34, symmetrically to just_pressed. -/
def just_released (h : Host) (inp : Nat) : Int :=
  boolToI32 (h.just_released inp 34)

/-! ## Spec-modelled host behaviour and codec for the claims whose deciding
code is not under src -/

/-- A byte range [addr, addr + size) lies inside some allocated region. -/
def writable (allocs : List (Nat × Nat)) (addr size : Nat) : Bool :=
  allocs.any fun p => decide (p.1 ≤ addr) && decide (addr + size ≤ p.1 + p.2)

/-- Modelled from the spec: the host codec (an external collaborator, not
under src) resolves every required input and output address against the
allocated regions of guest memory; if any is invalid it returns the
missing_memory errno and performs no write, otherwise it returns ok and the
computed memory. -/
def hostMathCall (allocs : List (Nat × Nat)) (mem : Mem) (ins : List (Nat × Nat))
    (out : Nat) (outSize : Nat) (compute : Mem → Mem) : Errno × Mem :=
  if (ins.all fun p => writable allocs p.1 p.2) && writable allocs out outSize then
    (Errno.ok, compute mem)
  else
    (Errno.missing_memory, mem)

/-- A Vec3 value as three 32-bit float patterns, one per schema field. -/
structure Vec3Val where
  x : Nat
  y : Nat
  z : Nat
deriving DecidableEq, Repr

/-- Modelled from the spec: encoding a Vec3 is a pure memory copy writing the
three f32 fields at the schema offsets x at 0, y at 4, z at 8 (src has no
explicit encode function; the layout is the vec3 record of math.witx). -/
def encodeVec3 (m : Mem) (a : Nat) (v : Vec3Val) : Mem :=
  store_f32 (store_f32 (store_f32 m a 0 v.x) a 4 v.y) a 8 v.z

/-- Modelled from the spec: decoding a Vec3 is a pure memory read of the
three f32 fields at the schema offsets x at 0, y at 4, z at 8. -/
def decodeVec3 (m : Mem) (a : Nat) : Vec3Val :=
  ⟨load_f32 m a 0, load_f32 m a 4, load_f32 m a 8⟩

/-! ## Concrete hosts and states used by witnesses and counterexamples -/

/-- A host whose math imports write nothing (the observable behaviour of a
failed call through the void-returning raw binding) and whose input queries
answer the constant b. -/
def hostOf (b : Bool) : Host :=
  ⟨fun m _ => m, fun m _ _ _ => m, fun m _ => m, fun _ _ => b, fun _ _ => b⟩

/-- The inert host: math imports write nothing, input queries answer false. -/
def hostInert : Host := hostOf false

/-- A host whose input queries answer true. -/
def hostAllTrue : Host := hostOf true

/-- All-zero linear memory. -/
def mem0 : Mem := fun _ => 0

/-- A concrete guest state: watermark 64, zeroed memory. -/
def st0 : GuestState := ⟨64, mem0⟩

/-! ## Helper lemmas on the byte-level memory primitives -/

/-- The bytes written by store_f32, address by address. -/
theorem store_f32_at (m : Mem) (p o v x : Nat) :
    store_f32 m p o v x =
      if x = p + o + 3 then v / 16777216 % 256
      else if x = p + o + 2 then v / 65536 % 256
      else if x = p + o + 1 then v / 256 % 256
      else if x = p + o then v % 256
      else m x := rfl

/-- A store_f32 leaves every byte outside its four-byte range unchanged. -/
theorem store_f32_outside (m : Mem) (p o v x : Nat)
    (h : x < p + o ∨ p + o + 3 < x) : store_f32 m p o v x = m x := by
  rw [store_f32_at, if_neg (by omega), if_neg (by omega), if_neg (by omega),
    if_neg (by omega)]

/-- Loading an f32 only reads the four bytes at its range. -/
theorem load_f32_congr (m m2 : Mem) (p o : Nat)
    (h : ∀ i, i < 4 → m (p + o + i) = m2 (p + o + i)) :
    load_f32 m p o = load_f32 m2 p o := by
  unfold load_f32 loadByte
  have h0 := h 0 (by omega)
  have h1 := h 1 (by omega)
  have h2 := h 2 (by omega)
  have h3 := h 3 (by omega)
  rw [Nat.add_zero] at h0
  rw [h0, h1, h2, h3]

/-- Reading back a just-stored 32-bit pattern returns it exactly. -/
theorem load_store_f32 (m : Mem) (p o v : Nat) (hv : v < 2 ^ 32) :
    load_f32 (store_f32 m p o v) p o = v := by
  unfold load_f32 loadByte
  rw [store_f32_at, store_f32_at, store_f32_at, store_f32_at]
  rw [if_neg (by omega), if_neg (by omega), if_neg (by omega), if_pos rfl]
  rw [if_neg (by omega), if_neg (by omega), if_pos rfl]
  rw [if_neg (by omega), if_pos rfl]
  rw [if_pos rfl]
  omega

/-- A load from a range disjoint from a store_f32 sees the old memory. -/
theorem load_f32_store_f32_disjoint (m : Mem) (p o q r v : Nat)
    (h : p + o + 3 < q + r ∨ q + r + 3 < p + o) :
    load_f32 (store_f32 m q r v) p o = load_f32 m p o := by
  apply load_f32_congr
  intro i hi
  exact store_f32_outside m q r v (p + o + i) (by omega)

/-- C8: encoding a Vec3 at the schema offsets x at 0, y at 4, z at 8 and
decoding it back reproduces the original three 32-bit float patterns
bit-for-bit; encode followed by decode is the identity on 32-bit fields. -/
theorem vec3_roundtrip (m : Mem) (a : Nat) (v : Vec3Val)
    (hx : v.x < 2 ^ 32) (hy : v.y < 2 ^ 32) (hz : v.z < 2 ^ 32) :
    decodeVec3 (encodeVec3 m a v) a = v := by
  unfold decodeVec3 encodeVec3
  obtain ⟨vx, vy, vz⟩ := v
  simp only [Vec3Val.mk.injEq]
  refine ⟨?_, ?_, ?_⟩
  · rw [load_f32_store_f32_disjoint _ _ _ _ _ _ (by omega),
      load_f32_store_f32_disjoint _ _ _ _ _ _ (by omega)]
    exact load_store_f32 m a 0 vx hx
  · rw [load_f32_store_f32_disjoint _ _ _ _ _ _ (by omega)]
    exact load_store_f32 _ a 4 vy hy
  · exact load_store_f32 _ a 8 vz hz

/-- C8 witness: the round trip at a concrete memory, address and value. -/
theorem vec3_roundtrip_witness :
    decodeVec3 (encodeVec3 mem0 16 ⟨1065353216, 3212836864, 7⟩) 16 =
      ⟨1065353216, 3212836864, 7⟩ :=
  vec3_roundtrip mem0 16 ⟨1065353216, 3212836864, 7⟩ (by decide) (by decide)
    (by decide)

/-! ## The claims about the codec and the schema -/

/-- C1 counterexample: against a host exhibiting the missing_memory failure
behaviour (it writes nothing to the output address), the guest codec of
interface.ts still constructs the typed wrapper Vec3 over the failed address
64 and returns it as a bare value, with the memory at that address untouched
garbage; no tag is checked and no error is surfaced, refuting the claim that
the guest codec checks a Result tag before constructing a wrapper. -/
theorem unit_z_no_error_surfaced_counterexample :
    (Vec3.unit_z hostInert st0).val = ⟨64⟩ ∧
    (Vec3.unit_z hostInert st0).state.mem = st0.mem ∧
    load_f32 (Vec3.unit_z hostInert st0).state.mem 64 0 = load_f32 st0.mem 64 0 :=
  ⟨rfl, rfl, rfl⟩

/-- C1 amended: the witx schema does declare every fallible math function
(unit_z, normalize, mul_vec3) with the Result shape expected(vec3, error
errno); but the AssemblyScript guest binding uses void-returning raw-pointer
imports and constructs the typed wrapper unconditionally for every host
behaviour, so no tag is checked and no error is surfaced to the caller. -/
theorem schema_result_vs_raw_pointer_binding :
    (wasmGlamModule.all fun f =>
      f.resultOk == TypeName.vec3 && f.resultErr == TypeName.errno) = true ∧
    (∀ (h : Host) (s : GuestState), (Vec3.unit_z h s).val = ⟨s.next⟩) ∧
    (∀ (h : Host) (s : GuestState) (q : Quat) (v : Vec3),
      (Quat.mul_vec3 h s q v).val = ⟨s.next⟩) ∧
    (∀ (h : Host) (s : GuestState) (v : Vec3), (Vec3.normalize h s v).val = v) :=
  ⟨by decide, fun h s => rfl, fun h s q v => rfl, fun h s v => rfl⟩

/-- C2: each Quat accessor reads one 32-bit float (a value below 2 to the
32, depending only on four bytes) at byte offset exactly 0, 4, 8 and 12 from
the wrapper's pointer, and these offsets are exactly the cumulative schema
offsets of the quat record; the record sizes are 16 and 12 bytes, the padded
sum of the field sizes being equal to the packed one (no padding). -/
theorem quat_accessors_match_schema (m : Mem) (q : Quat) :
    (fieldOffset quatRecord .x = some 0 ∧ Quat.getX m q = load_f32 m q.ptr 0) ∧
    (fieldOffset quatRecord .y = some 4 ∧ Quat.getY m q = load_f32 m q.ptr 4) ∧
    (fieldOffset quatRecord .z = some 8 ∧ Quat.getZ m q = load_f32 m q.ptr 8) ∧
    (fieldOffset quatRecord .w = some 12 ∧ Quat.getW m q = load_f32 m q.ptr 12) ∧
    recordSize quatRecord = 16 ∧ recordSize vec3Record = 12 ∧
    fieldOffset vec3Record .x = some 0 ∧ fieldOffset vec3Record .y = some 4 ∧
    fieldOffset vec3Record .z = some 8 ∧
    (∀ p o, load_f32 m p o < 2 ^ 32) :=
  ⟨⟨by decide, rfl⟩, ⟨by decide, rfl⟩, ⟨by decide, rfl⟩, ⟨by decide, rfl⟩,
    by decide, by decide, by decide, by decide, by decide,
    fun p o => by unfold load_f32 loadByte; omega⟩

/-- C3: Vec3.unit_z allocates a fresh VEC3_SIZE = 12 byte buffer at the
allocator watermark, invokes the boundary unit_z import with exactly that
address as the output location, and returns a wrapper whose address equals
the freshly allocated address. -/
theorem unit_z_guest_allocates (h : Host) (s : GuestState) :
    (Vec3.unit_z h s).val.ptr = s.next ∧
    (Vec3.unit_z h s).state.next = s.next + VEC3_SIZE ∧
    VEC3_SIZE = 12 ∧
    (Vec3.unit_z h s).calls = [BoundaryCall.unitZ s.next] ∧
    (Vec3.unit_z h s).state.mem = h.unit_z s.mem s.next :=
  ⟨rfl, rfl, by decide, rfl, rfl⟩

/-- C4: Quat.mul_vec3 allocates an output buffer of VEC3_SIZE = 12 bytes at
the allocator watermark, distinct from both input buffers whenever those
were allocated below the watermark, invokes the boundary mul_vec3 import
with the addresses in exactly the order (quat, vec, out), and returns a
wrapper over the output address. -/
theorem mul_vec3_fresh_out_ordered_args (h : Host) (s : GuestState)
    (q : Quat) (v : Vec3) (hq : q.ptr < s.next) (hv : v.ptr < s.next) :
    (Quat.mul_vec3 h s q v).val.ptr = s.next ∧
    (Quat.mul_vec3 h s q v).state.next = s.next + VEC3_SIZE ∧
    VEC3_SIZE = 12 ∧
    (Quat.mul_vec3 h s q v).val.ptr ≠ q.ptr ∧
    (Quat.mul_vec3 h s q v).val.ptr ≠ v.ptr ∧
    (Quat.mul_vec3 h s q v).calls = [BoundaryCall.mulVec3 q.ptr v.ptr s.next] ∧
    (Quat.mul_vec3 h s q v).state.mem = h.mul_vec3 s.mem q.ptr v.ptr s.next :=
  ⟨rfl, rfl, by decide, by intro e; rw [show (Quat.mul_vec3 h s q v).val.ptr = s.next from rfl] at e; omega,
    by intro e; rw [show (Quat.mul_vec3 h s q v).val.ptr = s.next from rfl] at e; omega,
    rfl, rfl⟩

/-- C4 witness: the mul_vec3 step at a concrete host, state and wrappers. -/
theorem mul_vec3_fresh_out_witness :
    (Quat.mul_vec3 hostInert st0 ⟨0⟩ ⟨16⟩).val.ptr = 64 ∧
    (Quat.mul_vec3 hostInert st0 ⟨0⟩ ⟨16⟩).val.ptr ≠ 0 ∧
    (Quat.mul_vec3 hostInert st0 ⟨0⟩ ⟨16⟩).calls =
      [BoundaryCall.mulVec3 0 16 64] :=
  ⟨(mul_vec3_fresh_out_ordered_args hostInert st0 ⟨0⟩ ⟨16⟩ (by decide)
      (by decide)).1,
   (mul_vec3_fresh_out_ordered_args hostInert st0 ⟨0⟩ ⟨16⟩ (by decide)
      (by decide)).2.2.2.1,
   (mul_vec3_fresh_out_ordered_args hostInert st0 ⟨0⟩ ⟨16⟩ (by decide)
      (by decide)).2.2.2.2.2.1⟩

/-- C5: a boundary math call whose output address is not covered by any
allocated region yields the missing_memory errno and leaves the whole guest
memory, hence every valid region, unchanged: no partial write happens on the
error path. -/
theorem invalid_out_missing_memory (allocs : List (Nat × Nat)) (mem : Mem)
    (ins : List (Nat × Nat)) (out outSize : Nat) (compute : Mem → Mem)
    (hout : writable allocs out outSize = false) :
    (hostMathCall allocs mem ins out outSize compute).1 = Errno.missing_memory ∧
    (hostMathCall allocs mem ins out outSize compute).2 = mem := by
  unfold hostMathCall
  rw [hout, Bool.and_false, if_neg (by decide)]
  exact ⟨rfl, rfl⟩

/-- C5 witness: with one allocated region of 12 bytes at 0, a call whose
output address 100 is unallocated returns missing_memory and the memory
unchanged. -/
theorem invalid_out_missing_memory_witness :
    (hostMathCall [(0, 12)] mem0 [] 100 12 id).1 = Errno.missing_memory ∧
    (hostMathCall [(0, 12)] mem0 [] 100 12 id).2 = mem0 :=
  invalid_out_missing_memory [(0, 12)] mem0 [] 100 12 id (by decide)

/-- C6: the guest-facing just_pressed forwards exactly the fixed input code
34 to the host import and returns the host's boolean unchanged as its i32
result: 1 exactly when the host answered true, 0 exactly when false. -/
theorem just_pressed_forwards_34 (h : Host) (inp : Nat) :
    just_pressed h inp = boolToI32 (h.just_pressed inp 34) ∧
    (h.just_pressed inp 34 = true → just_pressed h inp = 1) ∧
    (h.just_pressed inp 34 = false → just_pressed h inp = 0) :=
  ⟨rfl, fun e => by unfold just_pressed boolToI32; rw [e]; rfl,
    fun e => by unfold just_pressed boolToI32; rw [e]; rfl⟩

/-- C6 witness: fake host stubs answering constantly true and constantly
false are forwarded unchanged through just_pressed. -/
theorem just_pressed_forwards_34_witness :
    just_pressed hostAllTrue 0 = 1 ∧ just_pressed hostInert 0 = 0 :=
  ⟨(just_pressed_forwards_34 hostAllTrue 0).2.1 rfl,
   (just_pressed_forwards_34 hostInert 0).2.2 rfl⟩

/-- C7: the guest-facing just_released binding (modelled from the spec,
absent from src) forwards exactly the fixed code 34 to the host import and
returns the host's boolean unchanged, symmetrically to just_pressed. -/
theorem just_released_forwards_34 (h : Host) (inp : Nat) :
    just_released h inp = boolToI32 (h.just_released inp 34) ∧
    (h.just_released inp 34 = true → just_released h inp = 1) ∧
    (h.just_released inp 34 = false → just_released h inp = 0) :=
  ⟨rfl, fun e => by unfold just_released boolToI32; rw [e]; rfl,
    fun e => by unfold just_released boolToI32; rw [e]; rfl⟩

/-- C7 witness: fake host stubs answering constantly true and constantly
false are forwarded unchanged through just_released. -/
theorem just_released_forwards_34_witness :
    just_released hostAllTrue 0 = 1 ∧ just_released hostInert 0 = 0 :=
  ⟨(just_released_forwards_34 hostAllTrue 0).2.1 rfl,
   (just_released_forwards_34 hostInert 0).2.2 rfl⟩

/-- C9: the errno enumeration carries a u32 tag assigning ok the tag 0 and
missing_memory the tag 1; every tag is its declaration index, fits in 32
bits, and index 0 of the enumeration is the success case ok. -/
theorem errno_enum_tags :
    Errno.ok.tag = 0 ∧
    Errno.missing_memory.tag = 1 ∧
    errnoCases[0]? = some Errno.ok ∧
    (∀ e : Errno, errnoCases.indexOf? e = some e.tag) ∧
    (∀ e : Errno, e.tag < 2 ^ 32) :=
  ⟨rfl, rfl, rfl, fun e => by cases e <;> rfl, fun e => by cases e <;> decide⟩

/-- C10: Vec3.normalize operates in place: it passes the receiver's own
buffer address to the boundary normalize import as the in/out location,
allocates nothing (the watermark is unchanged), returns the receiver itself,
and the final memory is exactly the host's write at the receiver's address,
so any wrapper aliasing that address observes the normalized bytes. -/
theorem normalize_in_place (h : Host) (s : GuestState) (v : Vec3) :
    (Vec3.normalize h s v).val = v ∧
    (Vec3.normalize h s v).state.next = s.next ∧
    (Vec3.normalize h s v).calls = [BoundaryCall.normalizeAt v.ptr] ∧
    (Vec3.normalize h s v).state.mem = h.normalize s.mem v.ptr ∧
    (∀ w : Vec3, w.ptr = v.ptr →
      load_f32 (Vec3.normalize h s v).state.mem w.ptr 0 =
        load_f32 (h.normalize s.mem v.ptr) v.ptr 0) :=
  ⟨rfl, rfl, rfl, rfl, fun w e => by rw [e]; rfl⟩

/-- C10 witness: the in-place normalize at a concrete host, state, receiver
and a concrete aliasing wrapper over the same address. -/
theorem normalize_in_place_witness :
    (Vec3.normalize hostInert st0 ⟨8⟩).val = ⟨8⟩ ∧
    (Vec3.normalize hostInert st0 ⟨8⟩).state.next = 64 ∧
    load_f32 (Vec3.normalize hostInert st0 ⟨8⟩).state.mem 8 0 =
      load_f32 (hostInert.normalize st0.mem 8) 8 0 :=
  ⟨(normalize_in_place hostInert st0 ⟨8⟩).1,
   (normalize_in_place hostInert st0 ⟨8⟩).2.1,
   (normalize_in_place hostInert st0 ⟨8⟩).2.2.2.2 ⟨8⟩ rfl⟩

end AsSys
